import Mathlib

/-!
Verification of the damsafe monitoring core (src/damsafe.py): a Flask
management surface plus a polling daemon (server_command) that probes
Modbus devices and records an up/down history in an SQLite store.  The
definitions below are a shallow embedding of the data model, the polling
loop, the add and remove handlers, and the status derivation performed by
the data view.  Times held in the store are modelled as UTC whole seconds
(the SQLite datetime function has one-second resolution), and the display
process is modelled as querying at a wall-clock second at or after every
stored time.
-/

set_option autoImplicit false

namespace Damsafe

/-- A row of the device table.  Modelled from the spec: the schema file
referenced by init_db_command is not under src, so the column set follows
section 3 of the design document: a registry-assigned id, an
operator-chosen unique name, a host address and a register index (coil). -/
structure Device where
  id : Nat
  name : String
  ip : String
  coil : String
deriving Repr, DecidableEq

/-- A row of the device_status history table.  Modelled from the spec:
the schema file is not under src; the columns device_id, time, status and
error follow section 3 of the design document and the INSERT statement at
damsafe.py lines 240 to 242.  The error column is nullable because the
decode function of the protocol library may return no text. -/
structure Observation where
  device_id : Nat
  time : Nat
  status : Bool
  error : Option String
deriving Repr, DecidableEq

/-- The shared store: the device table and the device_status table. -/
structure Store where
  devices : List Device
  observations : List Observation
deriving Repr, DecidableEq

/-- Two-digit zero padding used by the Python str form of a timedelta. -/
def pad2 (n : Nat) : String :=
  if n < 10 then "0" ++ toString n else toString n

/-- The Python str form of a nonnegative timedelta of whole seconds, as it
appears after the source splits off the decimal point at damsafe.py line
111: unpadded hours, two-digit minutes and seconds, preceded by a day
count once the duration reaches one day. -/
def fmtTimedelta (s : Nat) : String :=
  let days := s / 86400
  let hms := toString (s % 86400 / 3600) ++ ":" ++ pad2 (s % 3600 / 60) ++ ":" ++ pad2 (s % 60)
  if days = 0 then hms
  else if days = 1 then "1 day, " ++ hms
  else toString days ++ " days, " ++ hms

/-- The naturaldelta function of the humanize library (external), on a
nonnegative whole-second duration: coarse units from seconds to years. -/
def naturaldelta (s : Nat) : String :=
  let secs := s % 86400
  let years := s / 86400 / 365
  let days := s / 86400 % 365
  let months := 2 * days / 61
  if years = 0 ∧ days = 0 then
    if secs = 0 then "a moment"
    else if secs = 1 then "a second"
    else if secs < 60 then toString secs ++ " seconds"
    else if secs < 120 then "a minute"
    else if secs < 3600 then toString (secs / 60) ++ " minutes"
    else if secs < 7200 then "an hour"
    else toString (secs / 3600) ++ " hours"
  else if years = 0 then
    if days = 1 then "a day"
    else if months = 0 then toString days ++ " days"
    else if months = 1 then "a month"
    else toString months ++ " months"
  else if years = 1 then
    if months = 0 ∧ days = 0 then "a year"
    else if months = 0 then "1 year, " ++ toString days ++ " days"
    else if months = 1 then "1 year, 1 month"
    else "1 year, " ++ toString months ++ " months"
  else toString years ++ " years"

/-- The history rows of one device: the join condition on device_id in the
data view query at damsafe.py lines 86 to 92. -/
def obsFor (obs : List Observation) (did : Nat) : List Observation :=
  obs.filter (fun o => o.device_id == did)

/-- MAX over the time column of a list of history rows, NULL when empty:
the aggregate status_time of the inner query of the data view. -/
def maxTime : List Observation → Option Nat
  | [] => none
  | o :: rest =>
    match maxTime rest with
    | none => some o.time
    | some m => some (max o.time m)

/-- The ds join of the data view query: the history row of the device
whose time equals status_time, that is the latest observation. -/
def dsRow (obs : List Observation) (did : Nat) : Option Observation :=
  match maxTime (obsFor obs did) with
  | none => none
  | some t => (obsFor obs did).find? (fun o => o.time == t)

/-- The dsup join of the data view query: seen_time is the time of a
history row of the device whose time equals status_time and whose status
is true.  Because of the condition on status_time, this is the time of
the latest observation when that observation is up, and NULL otherwise. -/
def seenTime (obs : List Observation) (did : Nat) : Option Nat :=
  match maxTime (obsFor obs did) with
  | none => none
  | some t => ((obsFor obs did).find? (fun o => o.time == t && o.status)).map (fun o => o.time)

/-- The status, uptime and lastseen strings computed for one device row of
the data view (damsafe.py lines 96 to 124): pending placeholders when the
device has no observation, the up branch with its seen_time marker
otherwise, and the down branch with never or a humanized duration. -/
def deviceFields (obs : List Observation) (did : Nat) (now : Nat) : String × String × String :=
  match dsRow obs did with
  | none => ("...", "...", "...")
  | some o =>
    if o.status then
      ("up",
        match seenTime obs did with
        | none => "just started"
        | some t => fmtTimedelta (now - t),
        "now")
    else
      ("down", "n/a",
        match seenTime obs did with
        | none => "never"
        | some t => naturaldelta (now - t))

/-- The error text of one device row of the data view (damsafe.py line
127): the literal none when the column is NULL, the stored text else. -/
def displayError (e : Option String) : String :=
  match e with
  | none => "none"
  | some s => s

/-- The daemon liveness report of the data view (damsafe.py lines 141 to
149): Alive when the server_alive marker exists and its modification time
is within ten seconds of the current wall clock, Dead otherwise, also
when the marker file is missing.  Wall-clock instants are rationals since
the Python time function returns fractional seconds. -/
def serverStatus (mtime : Option ℚ) (now : ℚ) : String :=
  match mtime with
  | none => "Dead"
  | some m => if now - m < 10 then "Alive" else "Dead"

/-- The three fields of the add form.  A missing field arrives as the
empty string, which is exactly what the Python truthiness tests of the
handler reject. -/
structure AddForm where
  name : String
  ip : String
  coil : String
deriving Repr, DecidableEq

/-- The validation chain of the add handler (damsafe.py lines 39 to 50):
the first failing check produces the message; the duplicate check scans
the device table for an equal name. -/
def addError (devices : List Device) (f : AddForm) : Option String :=
  if f.name = "" then some "Device name is required."
  else if f.ip = "" then some "IP address is required."
  else if f.coil = "" then some "Coil is required."
  else if devices.any (fun d => d.name == f.name) then some "Device name is already taken."
  else none

/-- The add handler (damsafe.py lines 31 to 65): on a validation failure
it flashes the message and leaves the device table untouched; otherwise
it inserts exactly one new row, with a fresh registry-assigned id. -/
def addDevice (devices : List Device) (nextId : Nat) (f : AddForm) : List Device × Option String :=
  match addError devices f with
  | some e => (devices, some e)
  | none => (devices ++ [⟨nextId, f.name, f.ip, f.coil⟩], none)

/-- The remove handler (damsafe.py lines 69 to 78): it deletes the device
rows whose name matches the submitted name and touches nothing else; in
particular the device_status table is left as it is. -/
def removeDevice (s : Store) (name : String) : Store :=
  { devices := s.devices.filter (fun d => !(d.name == name)),
    observations := s.observations }

/-- Outcome of the single read_coils call of one probe, at the boundary
of the pymodbus library (external): the synchronous client raises its
ConnectionException for transport failures, whether the TCP connection
could not be established (duringConnect true) or the transport failed
during the read itself (duringConnect false); otherwise it returns a
response object that carries an exception_code attribute exactly when the
device answered with a protocol-level fault. -/
inductive ReadOutcome where
  | raises (duringConnect : Bool)
  | returns (exceptionCode : Option Nat)
deriving Repr, DecidableEq

/-- The decode table of the protocol library (external): the name of a
Modbus fault code, or nothing for an unknown code. -/
def decodeFault (code : Nat) : Option String :=
  if code = 1 then some "IllegalFunction"
  else if code = 2 then some "IllegalAddress"
  else if code = 3 then some "IllegalValue"
  else if code = 4 then some "SlaveFailure"
  else if code = 5 then some "Acknowledge"
  else if code = 6 then some "SlaveBusy"
  else if code = 7 then some "NegativeAcknowledge"
  else if code = 8 then some "MemoryParityError"
  else if code = 10 then some "GatewayPathUnavailable"
  else if code = 11 then some "GatewayNoResponse"
  else none

/-- One iteration of the per-device loop of server_command (damsafe.py
lines 220 to 242): status starts true and error starts at the literal
none; a ConnectionException raised anywhere inside the read flips status
to false; a present exception_code on the returned object sets the error
text through the decode table, and its absence leaves the defaults; the
row inserted carries the id of the device and the current time. -/
def probeDevice (read : Device → ReadOutcome) (now : Nat) (d : Device) : Observation :=
  match read d with
  | .raises _ => ⟨d.id, now, false, some "none"⟩
  | .returns none => ⟨d.id, now, true, some "none"⟩
  | .returns (some c) => ⟨d.id, now, true, decodeFault c⟩

/-- The per-cycle device loop of server_command (damsafe.py lines 219 to
243): the device list is read once at the start of the cycle, then every
device is probed sequentially and its observation row is appended and
committed before the next device is handled. -/
def runCycle (read : Device → ReadOutcome) (now : Nat) :
    List Device → List Observation → List Observation
  | [], obs => obs
  | d :: rest, obs => runCycle read now rest (obs ++ [probeDevice read now d])

/-- Unfolding of the sequential per-device loop: the cycle appends, in
order, exactly the observation produced for each device of the list that
was read at the start of the cycle. -/
theorem runCycle_eq (read : Device → ReadOutcome) (now : Nat)
    (devices : List Device) (obs : List Observation) :
    runCycle read now devices obs = obs ++ devices.map (probeDevice read now) := by
  induction devices generalizing obs with
  | nil => simp [runCycle]
  | cons d rest ih =>
    simp [runCycle, ih, List.append_assoc]

/-- A find over a list whose last element is the unique match returns
that last element. -/
theorem find_last {α : Type} (l : List α) (x : α) (p : α → Bool)
    (hl : ∀ y ∈ l, p y = false) (hx : p x = true) :
    (l ++ [x]).find? p = some x := by
  induction l with
  | nil => simp [List.find?, hx]
  | cons a rest ih =>
    have ha := hl a (List.mem_cons_self a rest)
    simp only [List.cons_append, List.find?, ha]
    exact ih (fun y hy => hl y (List.mem_cons_of_mem a hy))

/-- Appending a strictly later row makes its time the new maximum. -/
theorem maxTime_append (l : List Observation) (o : Observation)
    (h : ∀ p ∈ l, p.time < o.time) :
    maxTime (l ++ [o]) = some o.time := by
  induction l with
  | nil => rfl
  | cons p rest ih =>
    have hp := h p (List.mem_cons_self p rest)
    have hrest : maxTime (rest ++ [o]) = some o.time :=
      ih (fun q hq => h q (List.mem_cons_of_mem p hq))
    simp [maxTime, hrest, Nat.max_eq_right (Nat.le_of_lt hp)]

/-- Filtering for a device commutes with appending a row of that device. -/
theorem obsFor_append (obs : List Observation) (o : Observation) (did : Nat)
    (h : o.device_id = did) :
    obsFor (obs ++ [o]) did = obsFor obs did ++ [o] := by
  simp [obsFor, List.filter_append, h]

/-- Every row selected for a device carries the id of that device and
comes from the full table. -/
theorem mem_obsFor (obs : List Observation) (did : Nat) (p : Observation)
    (hp : p ∈ obsFor obs did) : p ∈ obs ∧ p.device_id = did := by
  rcases List.mem_filter.mp hp with ⟨hmem, hbeq⟩
  exact ⟨hmem, by simpa using hbeq⟩

/-- Concrete devices used to evaluate the theorems below. -/
def dev1 : Device := ⟨1, "Pump-1", "10.0.0.1", "0"⟩

/-- A second concrete device. -/
def dev2 : Device := ⟨2, "Pump-2", "10.0.0.2", "1"⟩

/-- A probe behaviour under which every device fails at the transport
level during the read itself. -/
def demoReadDown : Device → ReadOutcome := fun _ => .raises false

/-- A probe behaviour under which every device answers with the Modbus
fault code two. -/
def demoReadFault : Device → ReadOutcome := fun _ => .returns (some 2)

/-- A probe behaviour that differs from demoReadFault on the second
device only. -/
def demoReadMixed : Device → ReadOutcome :=
  fun d => if d.id = 2 then .raises true else .returns (some 2)

/-- Claim C3: a transport-level failure that occurs during the register
read itself, and not only one raised while establishing the connection,
makes the probe outcome Down, so the observation recorded for the device
that cycle has a false status.  The boolean argument distinguishes the
phase of the ConnectionException; the handler of server_command treats
both phases alike because its try block encloses the whole read call. -/
theorem transportFailureDown (read : Device → ReadOutcome) (now : Nat)
    (d : Device) (b : Bool) (h : read d = .raises b) :
    (probeDevice read now d).status = false
    ∧ (probeDevice read now d).device_id = d.id := by
  unfold probeDevice
  rw [h]
  exact ⟨rfl, rfl⟩

/-- Witness for C3 at a concrete device whose read fails mid-transfer. -/
theorem transportFailureDown_w :
    (probeDevice demoReadDown 3 dev1).status = false
    ∧ (probeDevice demoReadDown 3 dev1).device_id = dev1.id :=
  transportFailureDown demoReadDown 3 dev1 false rfl

/-- Claim C4: within one poll cycle, every device of the list read at the
start of the cycle gets its probe attempted and its observation appended,
and one device never aborts the cycle for the rest: the appended rows are
exactly one per listed device, the row of a listed device is present
whatever the other probes did, and that row depends only on the probe
outcome of its own device. -/
theorem cycleIndependent (read read2 : Device → ReadOutcome) (now : Nat)
    (devices : List Device) (obs : List Observation) (d : Device)
    (hd : d ∈ devices) (hsame : read d = read2 d) :
    (runCycle read now devices obs).length = obs.length + devices.length
    ∧ probeDevice read now d ∈ runCycle read now devices obs
    ∧ probeDevice read now d = probeDevice read2 now d := by
  refine ⟨?_, ?_, ?_⟩
  · simp [runCycle_eq]
  · rw [runCycle_eq]
    exact List.mem_append_right _ (List.mem_map_of_mem _ hd)
  · unfold probeDevice
    rw [hsame]

/-- Witness for C4: the first device gets the same appended row whether
or not the probe of the second device fails. -/
theorem cycleIndependent_w :
    (runCycle demoReadFault 9 [dev1, dev2] []).length = 0 + 2
    ∧ probeDevice demoReadFault 9 dev1 ∈ runCycle demoReadFault 9 [dev1, dev2] []
    ∧ probeDevice demoReadFault 9 dev1 = probeDevice demoReadMixed 9 dev1 :=
  cycleIndependent demoReadFault demoReadMixed 9 [dev1, dev2] [] dev1
    (by decide) rfl

/-- Claim C5: the observation produced for a device in one cycle carries
the id of the device and the current time, its status is false exactly
when the probe raised, so a reachable device that answers with a protocol
fault is still recorded as up, its error is the decoded fault code when a
fault code was returned and the literal none otherwise, and the cycle
appends exactly one such row per registered device, whether or not the
status changed. -/
theorem observationContents (read : Device → ReadOutcome) (now : Nat) (d : Device) :
    (probeDevice read now d).device_id = d.id
    ∧ (probeDevice read now d).time = now
    ∧ ((probeDevice read now d).status = false ↔ ∃ b, read d = .raises b)
    ∧ (∀ c, read d = .returns (some c) →
        (probeDevice read now d).status = true
        ∧ (probeDevice read now d).error = decodeFault c)
    ∧ (read d = .returns none → (probeDevice read now d).error = some "none")
    ∧ (∀ b, read d = .raises b → (probeDevice read now d).error = some "none")
    ∧ (∀ devices obs, runCycle read now devices obs
        = obs ++ devices.map (probeDevice read now)) := by
  cases hr : read d with
  | raises b =>
    refine ⟨by simp [probeDevice, hr], by simp [probeDevice, hr],
      by simp [probeDevice, hr], ?_, ?_, ?_, fun devices obs => runCycle_eq read now devices obs⟩
    · intro c hc; cases hc
    · intro hc; cases hc
    · intro b2 hb; simp [probeDevice, hr]
  | returns oc =>
    cases oc with
    | none =>
      refine ⟨by simp [probeDevice, hr], by simp [probeDevice, hr],
        by simp [probeDevice, hr], ?_, ?_, ?_, fun devices obs => runCycle_eq read now devices obs⟩
      · intro c hc; cases hc
      · intro _; simp [probeDevice, hr]
      · intro b hb; cases hb
    | some c =>
      refine ⟨by simp [probeDevice, hr], by simp [probeDevice, hr],
        by simp [probeDevice, hr], ?_, ?_, ?_, fun devices obs => runCycle_eq read now devices obs⟩
      · intro c2 hc; cases hc; simp [probeDevice, hr]
      · intro hc; cases hc
      · intro b hb; cases hb

/-- Witness for C5: a device answering with fault code two is recorded as
up, with the decoded fault name as its error. -/
theorem observationContents_w :
    (probeDevice demoReadFault 7 dev1).status = true
    ∧ (probeDevice demoReadFault 7 dev1).error = decodeFault 2 :=
  (observationContents demoReadFault 7 dev1).2.2.2.1 2 rfl

/-- Claim C6: the daemon-alive report is Alive exactly when the heartbeat
marker exists and was updated within the last ten seconds, where within
is the strict comparison the source performs; when the marker is absent,
or its last update lies more than ten seconds back, the report is Dead. -/
theorem heartbeatFreshness (mtime : Option ℚ) (now : ℚ) :
    (serverStatus mtime now = "Alive" ↔ ∃ m, mtime = some m ∧ now - m < 10)
    ∧ ((mtime = none ∨ ∃ m, mtime = some m ∧ 10 < now - m) →
        serverStatus mtime now = "Dead") := by
  cases mtime with
  | none =>
    constructor
    · constructor
      · intro h; exact absurd h (by simp [serverStatus])
      · rintro ⟨m, hm, _⟩; cases hm
    · intro _; rfl
  | some m =>
    by_cases h : now - m < 10
    · constructor
      · constructor
        · intro _; exact ⟨m, rfl, h⟩
        · intro _; simp [serverStatus, h]
      · rintro (hn | ⟨m2, hm2, hgt⟩)
        · cases hn
        · cases hm2; exact absurd h (by simp [not_lt]; exact le_of_lt hgt)
    · constructor
      · constructor
        · intro hs; exact absurd hs (by simp [serverStatus, h])
        · rintro ⟨m2, hm2, hlt⟩; cases hm2; exact absurd hlt h
      · intro _; simp [serverStatus, h]

/-- Witness for C6: a marker updated three seconds ago reports Alive, a
marker updated eleven seconds ago reports Dead. -/
theorem heartbeatFreshness_w :
    serverStatus (some 0) 3 = "Alive" ∧ serverStatus (some 0) 11 = "Dead" :=
  ⟨(heartbeatFreshness (some 0) 3).1.mpr ⟨0, rfl, by norm_num⟩,
   (heartbeatFreshness (some 0) 11).2 (Or.inr ⟨0, rfl, by norm_num⟩)⟩

/-- Claim C7: an add request with a missing name, missing address or
missing register index, or one whose name equals the name of a device
already in the table, is rejected with a user-facing message and inserts
no row: the device table comes back unchanged. -/
theorem addRejected (devices : List Device) (nextId : Nat) (f : AddForm)
    (h : f.name = "" ∨ f.ip = "" ∨ f.coil = "" ∨ ∃ d ∈ devices, d.name = f.name) :
    (addDevice devices nextId f).1 = devices
    ∧ ∃ e, (addDevice devices nextId f).2 = some e := by
  have herr : addError devices f ≠ none := by
    unfold addError
    rcases h with h1 | h2 | h3 | ⟨d, hd, hn⟩
    · simp [h1]
    · by_cases hn : f.name = "" <;> simp [hn, h2]
    · by_cases hn : f.name = "" <;> by_cases hi : f.ip = "" <;> simp [hn, hi, h3]
    · by_cases hne : f.name = "" <;> by_cases hi : f.ip = "" <;>
        by_cases hc : f.coil = "" <;>
        simp [hne, hi, hc, List.any_eq_true]
      exact ⟨d, hd, hn⟩
  cases he : addError devices f with
  | none => exact absurd he herr
  | some e =>
    refine ⟨?_, e, ?_⟩ <;> simp [addDevice, he]

/-- Witness for C7: the duplicate-name scenario of the design document; a
second Pump-1 is rejected and no second row appears. -/
theorem addRejected_w :
    (addDevice [dev1] 5 ⟨"Pump-1", "10.0.0.9", "3"⟩).1 = [dev1]
    ∧ ∃ e, (addDevice [dev1] 5 ⟨"Pump-1", "10.0.0.9", "3"⟩).2 = some e :=
  addRejected [dev1] 5 ⟨"Pump-1", "10.0.0.9", "3"⟩
    (Or.inr (Or.inr (Or.inr ⟨dev1, by decide, rfl⟩)))

/-- Claim C10: removing a device by name deletes exactly the matching
rows of the device table, leaves every row of the device_status table in
place, so history entries of the removed device persist as dangling rows,
and removing a name that matches no device leaves the store unchanged. -/
theorem removeFrame (s : Store) (name : String) :
    (removeDevice s name).observations = s.observations
    ∧ (∀ d, d ∈ (removeDevice s name).devices ↔ d ∈ s.devices ∧ d.name ≠ name)
    ∧ ((∀ d ∈ s.devices, d.name ≠ name) → removeDevice s name = s) := by
  refine ⟨rfl, ?_, ?_⟩
  · intro d
    simp [removeDevice, List.mem_filter]
  · intro hall
    cases s with
    | mk devs obs =>
      have : devs.filter (fun d => !(d.name == name)) = devs := by
        apply List.filter_eq_self.mpr
        intro d hd
        simpa using hall d hd
      simp [removeDevice, this]

/-- Witness for C10: removing an absent name from a one-device store with
one history row changes nothing. -/
theorem removeFrame_w :
    (removeDevice ⟨[dev1], [⟨1, 0, true, some "none"⟩]⟩ "Pump-9").observations
        = [⟨1, 0, true, some "none"⟩]
    ∧ removeDevice ⟨[dev1], [⟨1, 0, true, some "none"⟩]⟩ "Pump-9"
        = ⟨[dev1], [⟨1, 0, true, some "none"⟩]⟩ :=
  ⟨(removeFrame ⟨[dev1], [⟨1, 0, true, some "none"⟩]⟩ "Pump-9").1,
   (removeFrame ⟨[dev1], [⟨1, 0, true, some "none"⟩]⟩ "Pump-9").2.2 (by decide)⟩

/-- A concrete history for device one: observed up at time zero, then
down at time one. -/
def demoHist : List Observation :=
  [⟨1, 0, true, some "none"⟩, ⟨1, 1, false, some "none"⟩]

/-- A concrete history in which the single observation of device one is
up at time ten. -/
def demoUp : List Observation := [⟨1, 10, true, some "none"⟩]

/-- Claim C8: a device with zero observations gets the pending
placeholder for status, uptime and lastseen, and in particular its status
is neither up nor down. -/
theorem pendingPlaceholder (obs : List Observation) (did now : Nat)
    (h : obsFor obs did = []) :
    deviceFields obs did now = ("...", "...", "...")
    ∧ (deviceFields obs did now).1 ≠ "up"
    ∧ (deviceFields obs did now).1 ≠ "down" := by
  have hds : dsRow obs did = none := by
    unfold dsRow
    rw [h]
    rfl
  have hfields : deviceFields obs did now = ("...", "...", "...") := by
    unfold deviceFields
    rw [hds]
  refine ⟨hfields, ?_, ?_⟩ <;> rw [hfields] <;> decide

/-- Witness for C8: device two has no row in the demo history. -/
theorem pendingPlaceholder_w :
    deviceFields demoHist 2 5 = ("...", "...", "...") :=
  (pendingPlaceholder demoHist 2 5 (by decide)).1

/-- Claim C2: a device whose latest observation is up is reported with
status up, and its uptime is the phrase just started when the seen_time
marker of the query is absent, and otherwise the elapsed time since the
marker, rendered as unpadded hours, two-digit minutes and two-digit
seconds, truncated to whole seconds, whenever the elapsed time is below
one day. -/
theorem upDeviceDisplay (obs : List Observation) (did now : Nat)
    (o : Observation) (hds : dsRow obs did = some o) (hup : o.status = true) :
    (deviceFields obs did now).1 = "up"
    ∧ (seenTime obs did = none → (deviceFields obs did now).2.1 = "just started")
    ∧ (∀ t, seenTime obs did = some t →
        (deviceFields obs did now).2.1 = fmtTimedelta (now - t)
        ∧ (now - t < 86400 →
            (deviceFields obs did now).2.1
              = toString ((now - t) % 86400 / 3600) ++ ":"
                ++ pad2 ((now - t) % 3600 / 60) ++ ":" ++ pad2 ((now - t) % 60))) := by
  have hfields : deviceFields obs did now
      = ("up",
          match seenTime obs did with
          | none => "just started"
          | some t => fmtTimedelta (now - t),
          "now") := by
    unfold deviceFields
    rw [hds]
    simp [hup]
  refine ⟨by rw [hfields], ?_, ?_⟩
  · intro hseen
    rw [hfields, hseen]
  · intro t hseen
    have hup2 : (deviceFields obs did now).2.1 = fmtTimedelta (now - t) := by
      rw [hfields, hseen]
    refine ⟨hup2, fun hday => ?_⟩
    rw [hup2]
    unfold fmtTimedelta
    simp [Nat.div_eq_of_lt hday]

/-- Witness for C2: the single up observation of the demo history makes
the marker its own time, and the uptime two seconds later renders as
zero hours, zero minutes, two seconds. -/
theorem upDeviceDisplay_w :
    (deviceFields demoUp 1 12).1 = "up"
    ∧ (deviceFields demoUp 1 12).2.1 = fmtTimedelta (12 - 10) := by
  have h := upDeviceDisplay demoUp 1 12 ⟨1, 10, true, some "none"⟩ (by decide) rfl
  exact ⟨h.1, (h.2.2 10 (by decide)).1⟩

/-- Claim C9: appending an observation whose time is strictly later than
every existing observation of the device and then querying the data view
reports exactly the status flag of that observation: up when it is true,
down when it is false. -/
theorem roundTripStatus (obs : List Observation) (o : Observation)
    (did now : Nat) (hid : o.device_id = did)
    (hlt : ∀ p ∈ obs, p.device_id = did → p.time < o.time) :
    (deviceFields (obs ++ [o]) did now).1 = if o.status then "up" else "down" := by
  have hobs : obsFor (obs ++ [o]) did = obsFor obs did ++ [o] :=
    obsFor_append obs o did hid
  have hfl : ∀ p ∈ obsFor obs did, p.time < o.time := by
    intro p hp
    rcases mem_obsFor obs did p hp with ⟨hmem, hpd⟩
    exact hlt p hmem hpd
  have hmax : maxTime (obsFor (obs ++ [o]) did) = some o.time := by
    rw [hobs]
    exact maxTime_append _ _ hfl
  have hfind : (obsFor obs did ++ [o]).find? (fun q => q.time == o.time) = some o := by
    apply find_last
    · intro y hy
      have hlt2 := hfl y hy
      simp [Nat.ne_of_lt hlt2]
    · simp
  have hds : dsRow (obs ++ [o]) did = some o := by
    unfold dsRow
    rw [hmax, hobs]
    exact hfind
  unfold deviceFields
  rw [hds]
  cases hstat : o.status <;> simp [hstat]

/-- Witness for C9: appending an up observation at time nine on top of
the demo history yields status up at once. -/
theorem roundTripStatus_w :
    (deviceFields (demoHist ++ [⟨1, 9, true, some "none"⟩]) 1 20).1 = "up" := by
  have h := roundTripStatus demoHist ⟨1, 9, true, some "none"⟩ 1 20 rfl (by decide)
  simpa using h

/-- Claim C1, evaluated at the failing input: device one was up at time
zero and down at time one, yet the data view reports lastseen as never,
because the dsup join of the query constrains seen_time to equal the time
of the latest observation, which is the down row; the comments of the
source and the design document both call for the time of the most recent
up observation instead. -/
theorem lastseenNeverBug :
    (deviceFields demoHist 1 5).2.2 = "never"
    ∧ demoHist.any (fun o => o.device_id == 1 && o.status) = true := by
  constructor
  · rfl
  · rfl

end Damsafe
